import Mathlib

/-!
# Verification of the coaching backend orchestration core

Shallow embedding of the conversation-orchestration core of the repository
(`backend/coaching_engine.py`, `backend/session_manager.py`) and proofs about
it.  Python strings are modelled as `List Char`, Python numbers as `ℚ`/`ℤ`,
Python `datetime` values as rational timestamps in seconds, and the inference
collaborator (Gemini) as an explicit oracle argument holding the parsed result
of each possible model call of a turn, matching the spec's treatment of the
LLM as a black box.  Dictionaries with a fixed key set are modelled as
structures; the loosely-typed response dictionaries are modelled as a tagged
variant type, one constructor per response shape the engine builds.
-/

namespace Coach

/-- Left-to-right scan counting non-overlapping occurrences: with `skip = 0`
a match is counted and the remaining `needle.length - 1` matched characters
are skipped via the counter. -/
def countOccAux (needle : List Char) : Nat → List Char → Nat
  | _, [] => 0
  | k+1, _ :: rest => countOccAux needle k rest
  | 0, c :: rest =>
    if needle.isPrefixOf (c :: rest) then
      1 + countOccAux needle (needle.length - 1) rest
    else countOccAux needle 0 rest

/-- Python `str.count(sub)` for a non-empty `sub`: number of non-overlapping
occurrences of `needle` in the haystack, scanning left to right
(`coaching_engine.py` uses it for filler-word counting). -/
def countOcc (needle hay : List Char) : Nat := countOccAux needle 0 hay

/-- Python `str.lower()` (the source only ever lowercases ASCII text). -/
def pyLower (s : List Char) : List Char := s.map Char.toLower

/-- Python `str.strip()`: drop whitespace from both ends. -/
def trimChars (s : List Char) : List Char :=
  ((s.dropWhile Char.isWhitespace).reverse.dropWhile Char.isWhitespace).reverse

/-- Python `str.split()` with no separator: whitespace-delimited words, empty
pieces discarded.  The first argument accumulates the current word reversed. -/
def pyWordsAux (acc : List Char) : List Char → List (List Char)
  | [] => if acc = [] then [] else [acc.reverse]
  | c :: rest =>
    if c.isWhitespace then
      if acc = [] then pyWordsAux [] rest else acc.reverse :: pyWordsAux [] rest
    else pyWordsAux (c :: acc) rest

def pyWords (s : List Char) : List (List Char) := pyWordsAux [] s

/-- `" ".join(words)`. -/
def joinSpace : List (List Char) → List Char
  | [] => []
  | [w] => w
  | w :: ws => w ++ ' ' :: joinSpace ws

/-- `" ".join(s.split())` — whitespace normalization used by
`_normalize_interview_question`. -/
def normSpace (s : List Char) : List Char := joinSpace (pyWords s)

/-- The part of the haystack strictly before the first occurrence of `pat`
(whole haystack if `pat` does not occur): Python `hay.split(pat, 1)[0]`. -/
def takeUntilSub (pat : List Char) : List Char → List Char
  | [] => []
  | c :: rest =>
    if pat.isPrefixOf (c :: rest) then [] else c :: takeUntilSub pat rest

/-- The part of the haystack after the first occurrence of `pat`, `none` when
`pat` does not occur: Python `hay.split(pat, 1)[1]` guarded by membership. -/
def dropAfterSub (pat : List Char) : List Char → Option (List Char)
  | [] => none
  | c :: rest =>
    if pat.isPrefixOf (c :: rest) then some ((c :: rest).drop pat.length)
    else dropAfterSub pat rest

/-- Python `pat in hay` on strings: substring containment. -/
def containsSub (pat : List Char) : List Char → Bool
  | [] => pat.isEmpty
  | c :: rest => pat.isPrefixOf (c :: rest) || containsSub pat rest

/-- Python truthiness of an optional string (`None` and `""` are falsy). -/
def strTruthy : Option (List Char) → Bool
  | none => false
  | some l => !l.isEmpty

/-- Python `a or b` where `a` is an optional string and `b` a string. -/
def pyOr (a : Option (List Char)) (b : List Char) : List Char :=
  if strTruthy a then a.getD [] else b

/-- Python `a or b` on two strings. -/
def pyOrStr (a b : List Char) : List Char := if a = [] then b else a

/-- Python `int(q)` on a float/number: truncation toward zero. -/
def pyInt (q : ℚ) : ℤ := if 0 ≤ q then ⌊q⌋ else ⌈q⌉

/-! ## Biometric frames and the barge-in detector (`BargeInDetector`) -/

/-- A biometric frame as the detector and report generator consume it.
Fields are optional because the Python code reads the underlying dict with
`.get` and explicit defaults (`heart_rate` default 100, `posture_score`
default 0, `gaze_direction` default `[0, 0, 0]`). -/
structure BiometricFrame where
  heart_rate : Option ℚ := none
  stress_level : Option String := none
  gaze_direction : Option (ℚ × ℚ × ℚ) := none
  posture_score : Option ℚ := none
deriving DecidableEq

/-- The filler-word lexicon shared by the barge-in detector and the
public-speaking metrics (`["um", "uh", "like", "you know", "basically",
"literally"]`). -/
def filler_words : List (List Char) :=
  ["um".data, "uh".data, "like".data, "you know".data,
   "basically".data, "literally".data]

/-- `sum(transcript.lower().count(word) for word in filler_words)`. -/
def fillerCount (transcript : List Char) : Nat :=
  (filler_words.map (fun w => countOcc w (pyLower transcript))).sum

/-- The trigger dictionary `BargeInDetector.should_trigger` returns. -/
structure BargeInTrigger where
  trigger_type : String
  confidence : ℚ
  triggers : List String
  biometric_context : Option BiometricFrame
deriving DecidableEq

/-- The `triggers` list built inside `BargeInDetector.should_trigger`:
`filler_words` when the transcript has at least 3 filler occurrences, then
`stress_spike` and `gaze_away` from the biometric frame when present. -/
def bargeTriggers (transcript : List Char) (biometric_data : Option BiometricFrame) :
    List String :=
  let t0 : List String := if 3 ≤ fillerCount transcript then ["filler_words"] else []
  match biometric_data with
  | none => t0
  | some frame =>
    let t1 := if frame.stress_level = some "high" then t0 ++ ["stress_spike"] else t0
    let g := frame.gaze_direction.getD (0, 0, 0)
    if 1/2 < |g.1| ∨ 1/2 < |g.2.1| then t1 ++ ["gaze_away"] else t1

/-- `BargeInDetector.should_trigger`: fires when the number of raised signals
reaches `max(1, int(3 * (1 - sensitivity)))`. -/
def should_trigger (transcript : List Char) (biometric_data : Option BiometricFrame)
    (sensitivity : ℚ) : Option BargeInTrigger :=
  let triggers := bargeTriggers transcript biometric_data
  let threshold : ℤ := max 1 (pyInt (3 * (1 - sensitivity)))
  if threshold ≤ (triggers.length : ℤ) then
    some { trigger_type := if 1 < triggers.length then "combined" else triggers.headD ""
           confidence := (triggers.length : ℚ) / 3
           triggers := triggers
           biometric_context := biometric_data }
  else none

/-! Claim-side definitions for C1, written from the spec's words to compare
with the code: the spec states the threshold as `max(1, round(3 × (1 −
sensitivity)))` and describes the three raised signals directly. -/

/-- The threshold as the spec states it (`round`, i.e. rounding). -/
def claimThreshold (sensitivity : ℚ) : ℤ := max 1 (round (3 * (1 - sensitivity)))

/-- The threshold as the code computes it (`int`, i.e. truncation). -/
def codeThreshold (sensitivity : ℚ) : ℤ := max 1 (pyInt (3 * (1 - sensitivity)))

/-- The number of raised signals as the claim describes them. -/
def claimSignalCount (transcript : List Char) (biometric_data : Option BiometricFrame) :
    ℕ :=
  (if 3 ≤ fillerCount transcript then 1 else 0) +
    (match biometric_data with
     | none => 0
     | some frame =>
       (if frame.stress_level = some "high" then 1 else 0) +
         (if 1/2 < |(frame.gaze_direction.getD (0, 0, 0)).1| ∨
             1/2 < |(frame.gaze_direction.getD (0, 0, 0)).2.1| then 1 else 0))

/-! ## Session data model (`session_manager.py`) -/

/-- The value of a `visual_content` slot: the Python code stores either a
plain string, a parsed draw-directive dict `{command, detail}` or `None`
there. -/
inductive VisualContentVal
  | null
  | str (s : List Char)
  | directive (command detail : List Char)
deriving DecidableEq

/-- A dialogue record as the engine writes it: every entry produced by the
engine carries `role` and `content` (the "new direct format" branch of
`SessionManager.add_interaction`); barge-in entries additionally carry
`"type": "barge_in"`.  ISO timestamps are omitted from the model — no claim
depends on them. -/
structure Entry where
  role : String
  content : List Char
  visual_content : VisualContentVal := .str []
  is_barge_in : Bool := false
deriving DecidableEq

/-- An element of the `interactions` list: either an engine entry or the
`context_summary` record `_compress_context` synthesizes.  Its `key_topics`
list is omitted: `_extract_key_topics` looks up the legacy `"user"` key,
which entries written by this engine never carry, so it is always empty. -/
inductive InteractionRecord
  | entry (e : Entry)
  | summary (interaction_count : ℕ)
deriving DecidableEq

/-- The derived biometric baseline. -/
structure Baseline where
  resting_heart_rate : ℚ
  stress_threshold : ℚ
deriving DecidableEq

/-- `interview_state` sub-record (timestamps as rational seconds). -/
structure InterviewState where
  stage : String := "init"
  role : List Char := []
  job_description : List Char := []
  resume : List Char := []
  started : Bool := false
  start_time : Option ℚ := none
  question_count : ℤ := 0
  max_questions : ℤ := 10
  min_questions : ℤ := 6
  target_minutes : ℤ := 10
  max_minutes : ℤ := 15
  current_question : List Char := []
  current_section : String := ""
  hint_used : Bool := false
  last_question_time : Option ℚ := none
deriving DecidableEq

/-- `public_speaking_state` sub-record. -/
structure PublicSpeakingState where
  stage : String := "init"
  speaking_type : List Char := []
  topic : List Char := []
  script : List Char := []
  started : Bool := false
  start_time : Option ℚ := none
  main_speech_start : Option ℚ := none
  followup_index : ℤ := 0
  followup_total : ℤ := 3
  word_count : ℤ := 0
  filler_count : ℤ := 0
  pause_count : ℤ := 0
  long_pause_count : ℤ := 0
deriving DecidableEq

/-- A session record, mirroring the dict built by
`SessionManager.create_session`. -/
structure Session where
  session_id : String
  user_id : String
  mode : String
  start_time : ℚ := 0
  end_time : Option ℚ := none
  context_history : List Entry := []
  biometric_timeline : List BiometricFrame := []
  interactions : List InteractionRecord := []
  biometric_baseline : Option Baseline := none
  barge_in_sensitivity : ℚ := 7/10
  duration : ℚ := 0
  tutoring_step : ℤ := 0
  interview_state : InterviewState := {}
  public_speaking_state : PublicSpeakingState := {}
deriving DecidableEq

/-- `SessionManager.create_session` (the generated uuid and the wall-clock
creation time are parameters). -/
def create_session (session_id user_id mode : String) (now : ℚ) : Session :=
  { session_id := session_id
    user_id := user_id
    mode := mode
    start_time := now }

/-- The projection `add_interaction` applies when copying an entry into
`context_history`: only `role`, `content`, `visual_content` (default `""`)
and the timestamp are kept, so the barge-in type marker is dropped. -/
def toHistoryEntry (e : Entry) : Entry :=
  { role := e.role, content := e.content, visual_content := e.visual_content }

/-- `SessionManager._compress_context`: keeps the last 20 interactions and
prepends a summary of the older ones; a no-op on 30 or fewer interactions.
It rewrites only `interactions` — `context_history` is left untouched. -/
def compress_context (s : Session) : Session :=
  if s.interactions.length ≤ 30 then s
  else
    { s with interactions :=
        .summary (s.interactions.length - 20) ::
          s.interactions.drop (s.interactions.length - 20) }

/-- `SessionManager.add_interaction` for a session already in hand: append to
`interactions`, append the projected entry to `context_history` (every engine
entry carries `role` and `content`, so the legacy branch never runs), then
auto-compress once more than 100 interactions have accumulated. -/
def add_interaction (s : Session) (e : Entry) : Session :=
  let s1 := { s with
    interactions := s.interactions ++ [.entry e]
    context_history := s.context_history ++ [toHistoryEntry e] }
  if 100 < s1.interactions.length then compress_context s1 else s1

/-- Appending a list of interactions in order. -/
def addInteractions (s : Session) : List Entry → Session
  | [] => s
  | e :: rest => addInteractions (add_interaction s e) rest

/-- `SessionManager.end_session` for a session in hand: stamp `end_time`,
derive `duration`, compress when `context_history` holds more than 50
entries. -/
def end_session (now : ℚ) (s : Session) : Session :=
  let s1 := { s with end_time := some now, duration := now - s.start_time }
  if 50 < s1.context_history.length then compress_context s1 else s1

/-- `SessionManager._calculate_baseline`: average heart rate (default 70)
over the first 10 frames, stress threshold 20% above it. -/
def calculate_baseline (s : Session) : Session :=
  let timeline := s.biometric_timeline.take 10
  if timeline = [] then s
  else
    let avg := (timeline.map (fun b => b.heart_rate.getD 70)).sum / timeline.length
    { s with biometric_baseline := some ⟨avg, avg * (12/10)⟩ }

/-- `SessionManager.add_biometric_data` for a session in hand (the timestamp
the code stamps onto the frame is omitted, as on entries). -/
def add_biometric_session (s : Session) (b : BiometricFrame) : Session :=
  let s1 := { s with biometric_timeline := s.biometric_timeline ++ [b] }
  if s1.biometric_baseline = none ∧ 10 ≤ s1.biometric_timeline.length then
    calculate_baseline s1
  else s1

/-- `SessionManager.get_latest_biometric` for a session in hand. -/
def get_latest_biometric (s : Session) : Option BiometricFrame :=
  s.biometric_timeline.getLast?

/-- The `active_sessions` store: session id to session record. -/
def SessionStore := String → Option Session

/-- `SessionManager.add_interaction` at the store's public interface: an
unknown id returns with no state change. -/
def store_add_interaction (st : SessionStore) (session_id : String) (e : Entry) :
    SessionStore :=
  match st session_id with
  | none => st
  | some s => fun k => if k = session_id then some (add_interaction s e) else st k

/-- `SessionManager.add_biometric_data` at the store's public interface. -/
def store_add_biometric (st : SessionStore) (session_id : String)
    (b : BiometricFrame) : SessionStore :=
  match st session_id with
  | none => st
  | some s => fun k => if k = session_id then some (add_biometric_session s b) else st k

/-! ## Pure engine helpers (`CoachingEngine`) -/

/-- `CoachingEngine._parse_draw_directive`: a string starting (after
stripping) with `DRAW_` is split into a command and a detail on the first
colon. -/
def parse_draw_directive (text : List Char) : Option (List Char × List Char) :=
  if text = [] then none
  else
    let raw := trimChars text
    if !("DRAW_".data.isPrefixOf raw) then none
    else
      let command := trimChars (takeUntilSub ":".data raw)
      let detail := match dropAfterSub ":".data raw with
        | some rest => trimChars rest
        | none => []
      if command = [] then none
      else some (command, detail)

/-- `CoachingEngine._section_for_question`: fixed section schedule keyed by
question index. -/
def section_for_question (index : ℤ) : String :=
  if index < 1 then "warmup"
  else if index < 3 then "background"
  else if index < 7 then "technical"
  else if index < 9 then "behavioral"
  else "wrapup"

/-- `CoachingEngine._normalize_interview_question`: whitespace-collapse, then
truncate at the first `?` (when its prefix is non-empty after stripping),
otherwise at the first of the dividers `". "`, `"\n"`, `"; "` that occurs,
appending a `?`. -/
def normalize_interview_question (question : List Char) : List Char :=
  let normalized := normSpace question
  if normalized = [] then "Tell me about a project you worked on recently.".data
  else if '?' ∈ normalized then
    let first := trimChars (normalized.takeWhile (fun c => c ≠ '?'))
    if first ≠ [] then first ++ ['?'] else normalized
  else
    match [". ".data, "\n".data, "; ".data].find? (fun d => containsSub d normalized) with
    | some d =>
      let first := trimChars (takeUntilSub d normalized)
      if first ≠ [] then first ++ ['?']
      else if !(normalized.getLast? = some '?') then normalized ++ ['?'] else normalized
    | none =>
      if !(normalized.getLast? = some '?') then normalized ++ ['?'] else normalized

/-- `CoachingEngine._is_yes`. -/
def is_yes (text : List Char) : Bool :=
  (["yes", "ready", "yep", "yeah", "ok", "okay", "sure", "start"].map
    String.data).any (fun tok => containsSub tok text)

/-- `CoachingEngine._is_skip`. -/
def is_skip (text : List Char) : Bool :=
  (["", "skip", "no", "none", "n/a", "na"].map String.data).any
    (fun tok => text = tok)

/-- `CoachingEngine._is_public_speaking_done`. -/
def is_public_speaking_done (text : List Char) : Bool :=
  (["done", "thank you", "thanks", "finished", "end"].map String.data).any
    (fun tok => containsSub tok text)

/-- `CoachingEngine._normalize_speaking_type`: first key of the (insertion
ordered) type map occurring in the normalized text wins. -/
def normalize_speaking_type (text : List Char) : Option (List Char) :=
  let normalized := pyLower (trimChars text)
  let type_map : List (List Char × List Char) :=
    [("interview answer".data, "Interview answer".data),
     ("interview".data, "Interview answer".data),
     ("presentation".data, "Presentation".data),
     ("pitch".data, "Pitch".data),
     ("storytelling".data, "Storytelling".data),
     ("story".data, "Storytelling".data),
     ("casual conversation".data, "Casual conversation".data),
     ("conversation".data, "Casual conversation".data)]
  (type_map.find? (fun p => containsSub p.1 normalized)).map (fun p => p.2)

/-- `CoachingEngine._followup_question` (`questions[min(index, len - 1)]`;
every call site passes a non-negative index). -/
def followup_question (index : ℤ) : List Char :=
  let questions : List (List Char) :=
    ["Can you summarize your main point in one sentence?".data,
     "What is one real-world example that supports your point?".data,
     "Who is your target audience?".data]
  questions.getD (min index 2).toNat []

/-- `CoachingEngine._update_public_speaking_metrics`: cumulative word,
filler-word and ellipsis-pause counters. -/
def update_public_speaking_metrics (st : PublicSpeakingState) (text : List Char) :
    PublicSpeakingState :=
  let words := pyWords text
  let lowered := pyLower text
  let filler := (filler_words.map (fun w => countOcc w lowered)).sum
  { st with
    word_count := st.word_count + words.length
    filler_count := st.filler_count + filler
    pause_count := st.pause_count + countOcc "...".data lowered }

/-- `CoachingEngine._should_end_interview`: question budget reached, or 15
minutes elapsed since `start_time` when it is set. -/
def should_end_interview (now : ℚ) (st : InterviewState) : Bool :=
  if st.max_questions ≤ st.question_count then true
  else
    match st.start_time with
    | some t => (st.max_minutes : ℚ) * 60 ≤ now - t
    | none => false

/-- Score used by `_find_peak_confidence`: `posture_score - heart_rate / 100`
with the dict-read defaults 0 and 100. -/
def frameScore (f : BiometricFrame) : ℚ :=
  f.posture_score.getD 0 - f.heart_rate.getD 100 / 100

/-- Python `max(scored_frames, key=first)`: left-to-right scan keeping the
first maximal element (replacement only on strict improvement). -/
def pickPeak (best : ℚ × BiometricFrame) :
    List (ℚ × BiometricFrame) → ℚ × BiometricFrame
  | [] => best
  | x :: rest => pickPeak (if best.1 < x.1 then x else best) rest

/-- `CoachingEngine._find_peak_confidence`. -/
def find_peak_confidence (biometric_timeline : List BiometricFrame) :
    Option BiometricFrame :=
  match biometric_timeline.map (fun f => (frameScore f, f)) with
  | [] => none
  | x :: rest => some (pickPeak x rest).2

/-- The canned barge-in feedback text (`_handle_barge_in`). -/
def bargeInMessage (trigger_type : String) : List Char :=
  if trigger_type = "filler_words" then
    "Stop. You are using too many filler words. Take a breath and restart your thought clearly.".data
  else if trigger_type = "stress_spike" then
    "Pause. I can tell you are nervous. Take a moment to collect yourself.".data
  else if trigger_type = "gaze_away" then
    "Look at me. Maintain eye contact when speaking.".data
  else if trigger_type = "combined" then
    "Stop. Let us reset. You are showing stress, poor eye contact, and using filler words. Breathe and try again.".data
  else "Let us pause and refocus.".data

/-! ## Model responses and the inference oracle -/

/-- A `visual` payload `{type, content}` inside a structured model reply. -/
structure VisualPayload where
  vtype : Option String := none
  content : VisualContentVal := .null
deriving DecidableEq

/-- The parsed dictionary `GeminiClient.generate_structured_response` hands to
`process_text`: only the keys the engine reads are modelled, each optional
(`None` encodes an absent key, and a non-integer `step` is encoded as an
absent one, matching the `isinstance(proposed_step, int)` guard). -/
structure GeminiStructured where
  kind : Option String := none
  rtype : Option String := none
  step : Option ℤ := none
  narration : Option (List Char) := none
  voice_text : Option (List Char) := none
  visual_content : Option (List Char) := none
  visual : Option VisualPayload := none
  pedagogical_state : Option String := none
  message : Option (List Char) := none
deriving DecidableEq

/-- Python `a or b` on two optional strings. -/
def pyOrOpt (a b : Option (List Char)) : Option (List Char) :=
  if strTruthy a then a else b

/-- The parsed answer evaluation (`_evaluate_interview_answer`): `some`
stands for a model reply whose `evaluation` key is truthy, `none` for a
failed or unusable reply (which selects the length-based fallback). -/
structure EvalResult where
  evaluation : String
  strengths : List (List Char) := []
  improvements : List (List Char) := []
  hint : Option (List Char) := none
deriving DecidableEq

/-- The json payload of a `BEGIN_INTERVIEW::{...}` command after parsing
(all defaults when parsing fails or no payload is attached). -/
structure BeginInterviewPayload where
  job_description : List Char := []
  resume : List Char := []
  role : Option (List Char) := none
deriving DecidableEq

/-- The json payload of a `BEGIN_PUBLIC_SPEAKING::{...}` command. -/
structure BeginSpeakingPayload where
  speaking_type : List Char := []
  topic : List Char := []
  script : List Char := []
deriving DecidableEq

/-- The external collaborators' contributions to one turn, passed explicitly:
the structured model reply, the technical-question reply, the answer
evaluation and the setup-command payloads. -/
structure Oracles where
  structured : GeminiStructured := {}
  question : Option (List Char) := none
  evalResp : Option EvalResult := none
  beginInterview : BeginInterviewPayload := {}
  beginSpeaking : BeginSpeakingPayload := {}
deriving DecidableEq

/-- The outbound response dictionaries the engine builds, as a tagged
variant (spec §9 recommends exactly this reading of the dict merges).
`structured` is the (possibly step-repaired) model dictionary returned by the
step/check-in branch; `stepFallback` the canned tutoring inference-failure
step; `autoStep` the kind-less tutoring fallback; `coach` any
`coach_response` dictionary; `sessionEnded` the `session_ended` response
(its report payload is not modelled); `bargeIn` the barge-in response. -/
inductive Resp
  | structured (r : GeminiStructured)
  | coach (voice_text visual_content : List Char) (pedagogical_state : String)
  | stepFallback (step : ℤ) (narration : List Char) (error : Option (List Char))
  | autoStep (step : ℤ) (narration : List Char) (visual_content : Option (List Char))
      (pedagogical_state : String)
  | sessionEnded
  | bargeIn (trigger : BargeInTrigger) (text : List Char)
deriving DecidableEq

/-- `response.get("voice_text")` on an outbound response. -/
def Resp.get_voice_text : Resp → Option (List Char)
  | .structured r => r.voice_text
  | .coach v _ _ => some v
  | .bargeIn _ t => some t
  | _ => none

/-- `response.get("narration")`. -/
def Resp.get_narration : Resp → Option (List Char)
  | .structured r => r.narration
  | .stepFallback _ n _ => some n
  | .autoStep _ n _ _ => some n
  | _ => none

/-- `response.get("text")`. -/
def Resp.get_text : Resp → Option (List Char)
  | .bargeIn _ t => some t
  | _ => none

/-- `response.get("visual_content")`. -/
def Resp.get_visual_content : Resp → Option (List Char)
  | .structured r => r.visual_content
  | .coach _ vc _ => some vc
  | .bargeIn _ t => some t
  | _ => none

/-- `response.get("visual")` (a dict or absent). -/
def Resp.get_visual : Resp → Option VisualPayload
  | .structured r => r.visual
  | .stepFallback _ _ _ => some { vtype := some "none", content := .null }
  | .autoStep _ _ vc _ =>
      some { vtype := some "none",
             content := match vc with | some s => .str s | none => .null }
  | _ => none

/-- `payload.get("content") or ""` on a visual payload value. -/
def vcOrEmpty : VisualContentVal → VisualContentVal
  | .null => .str []
  | v => v

/-- The user entry `process_text` and the two flows append. -/
def mkUserEntry (text : List Char) : Entry := { role := "user", content := text }

/-! ## `CoachingEngine.process_text`, free-form (tutoring/default) path -/

/-- The step repair applied by `process_text` to a `kind = "step"` model
reply (the step number itself has already been fixed at this point): fill an
empty narration from `voice_text`/`visual_content`, then promote plain-text
visual content carrying a draw directive into a structured diagram payload.
None of these touch the `step` field. -/
def repair_step_response (r : GeminiStructured) : GeminiStructured :=
  let r2 :=
    if !strTruthy r.narration then
      { r with narration := some (pyOr r.voice_text (r.visual_content.getD [])) }
    else r
  let visual_content := r2.visual_content
  let draw_directive := match visual_content with
    | some t => parse_draw_directive t
    | none => none
  let r3 :=
    if r2.visual = none ∧ strTruthy visual_content then
      { r2 with visual := some (match draw_directive with
          | some cd => { vtype := some "diagram", content := .directive cd.1 cd.2 }
          | none => { vtype := some "none", content := .str (visual_content.getD []) }) }
    else r2
  let dd_content : VisualContentVal := match draw_directive with
    | some cd => .directive cd.1 cd.2
    | none => .null
  match r3.visual with
  | some vp =>
    if (vp.vtype = none ∨ vp.vtype = some "none") ∧ draw_directive.isSome then
      { r3 with visual := some { vtype := some "diagram", content := dd_content } }
    else if vp.vtype = some "diagram" then
      match vp.content with
      | .str sv =>
        match parse_draw_directive sv with
        | some cd =>
            { r3 with visual := some { vtype := vp.vtype, content := .directive cd.1 cd.2 } }
        | none => r3
      | _ => r3
    else r3
  | none => r3

/-- The step-number repair of `process_text` (lines branching on
`isinstance(proposed_step, int) or proposed_step <= current_step`). -/
def resolve_step (current_step : ℤ) (proposed : Option ℤ) : ℤ :=
  match proposed with
  | some p => if p ≤ current_step then current_step + 1 else p
  | none => current_step + 1

/-- The assistant entry the step/check-in branch records: content is the
(possibly repaired) narration, `visual_content` is the visual payload's
content (`or ""`). -/
def step_branch_entry (r' : GeminiStructured) : Entry :=
  { role := "assistant"
    content := r'.narration.getD []
    visual_content := match r'.visual with
      | some vp => vcOrEmpty vp.content
      | none => .str [] }

/-- `process_text` for the non-interview, non-public-speaking modes: append
the user entry, then branch on the model reply (step/check-in repair with
assistant append; `type = "error"` fallbacks without assistant append;
kind-less tutoring fallback without assistant append; generic coach response
with assistant append). -/
def process_text_freeform (mode : String) (r : GeminiStructured) (s : Session)
    (text : List Char) : Resp × Session :=
  let s := add_interaction s (mkUserEntry text)
  if r.kind = some "step" ∨ r.kind = some "check_in" then
    let pr :=
      if r.kind = some "step" then
        let step1 := resolve_step s.tutoring_step r.step
        (repair_step_response { r with step := some step1 },
         { s with tutoring_step := step1 })
      else (r, s)
    let r' := pr.1
    let s2 := add_interaction pr.2 (step_branch_entry r')
    (.structured r', s2)
  else if r.rtype = some "error" then
    if mode = "tutoring" then
      (.stepFallback 1
        "I hit a temporary issue reaching the coaching model. Please restate the topic in one short phrase and I will continue.".data
        (pyOrOpt r.visual_content r.message), s)
    else
      (.coach "I hit a temporary issue reaching the coaching model. Please repeat that.".data
        "Temporary connection issue. Try again in a moment.".data "error", s)
  else if mode = "tutoring" ∧ r.kind = none then
    let s1 := { s with tutoring_step := s.tutoring_step + 1 }
    (.autoStep s1.tutoring_step
      (pyOr r.voice_text
        (pyOrStr (r.visual_content.getD []) "Let us begin with the core idea.".data))
      r.visual_content (r.pedagogical_state.getD "explaining"), s1)
  else
    let s2 := add_interaction s
      { role := "assistant", content := r.voice_text.getD [],
        visual_content := .str (r.visual_content.getD []) }
    (.coach (r.voice_text.getD []) (r.visual_content.getD [])
      (r.pedagogical_state.getD "explaining"), s2)

/-! ## Interview flow (`_handle_interview_flow`) -/

/-- `CoachingEngine._interview_prompt` (a plain `coach_response`). -/
def interview_prompt (voice_text visual_text : List Char) : Resp :=
  .coach voice_text visual_text "evaluating"

/-- `CoachingEngine._evaluate_interview_answer`: model verdict when usable,
length-based canned fallback otherwise. -/
def evaluate_interview_answer (evalResp : Option EvalResult) (answer : List Char) :
    EvalResult :=
  match evalResp with
  | some e => e
  | none =>
    if answer.length < 30 then
      { evaluation := "weak"
        strengths := ["Concise response".data]
        improvements := ["Add specific examples".data]
        hint := some "Add one concrete example from your experience.".data }
    else
      { evaluation := "partial"
        strengths := ["Clear explanation".data]
        improvements := ["Add more detail".data]
        hint := some "Support your answer with a concrete detail.".data }

/-- `CoachingEngine._generate_interview_question`: canned templates outside
the technical section, model question (normalized) or normalized canned
default inside it. -/
def generate_interview_question (questionResp : Option (List Char))
    (st : InterviewState) (sect : String) (index : ℤ) : List Char :=
  if sect = "warmup" then
    "Give me a quick overview of yourself and your background.".data
  else if sect = "background" then
    if index = 1 then
      "Tell me about a project you worked on that relates to ".data ++
        pyOrStr st.role "the role".data ++ ". What problem did it solve?".data
    else
      "What was your personal contribution to a recent project you are proud of?".data
  else if sect = "behavioral" then
    if index = 7 then "Tell me about a challenge you faced.".data
    else "How do you handle tight deadlines?".data
  else if sect = "wrapup" then
    "What questions do you have for me about the role?".data
  else
    match questionResp with
    | some q => normalize_interview_question q
    | none =>
      normalize_interview_question
        "What data structure would you use to check if a value has appeared before in a list, and why?".data

/-- `"\n".join(items)`. -/
def joinNewline : List (List Char) → List Char
  | [] => []
  | [w] => w
  | w :: ws => w ++ '\n' :: joinNewline ws

/-- `CoachingEngine._format_feedback`. -/
def format_feedback (e : EvalResult) : List Char :=
  let strength_text :=
    pyOrStr (joinNewline (e.strengths.map (fun i => "- ".data ++ i)))
      "- Clear response".data
  let improvement_text :=
    pyOrStr (joinNewline (e.improvements.map (fun i => "- ".data ++ i)))
      "- Add one specific example".data
  "Strengths:\n".data ++ strength_text ++ "\n\nImprovements:\n".data ++ improvement_text

/-- `CoachingEngine._ask_next_interview_question`: end the session when the
budget is exhausted, otherwise select the section for the next index,
generate the question, advance `question_count` and reset the per-question
flags.  The passed feedback strings are never empty, so `feedback or
"Interview in progress."` is `getD`. -/
def ask_next_interview_question (now : ℚ) (questionResp : Option (List Char))
    (s : Session) (st : InterviewState) (feedback : Option (List Char)) :
    Resp × Session :=
  if should_end_interview now st then
    (.sessionEnded, end_session now s)
  else
    let next_index := st.question_count
    let sect := section_for_question next_index
    let question := generate_interview_question questionResp st sect next_index
    let st1 := { st with
      question_count := next_index + 1
      current_section := sect
      current_question := question
      hint_used := false
      last_question_time := some now }
    (.coach question (feedback.getD "Interview in progress.".data) "evaluating",
     { s with interview_state := st1 })

/-- `CoachingEngine._handle_interview_flow`.  The re-initialization of an
empty `interview_state` is dead code (`create_session` always populates it),
so the session's sub-record is used directly. -/
def handle_interview_flow (now : ℚ) (o : Oracles) (s : Session) (text : List Char) :
    Resp × Session :=
  let st := s.interview_state
  let normalized := trimChars text
  let lower := pyLower normalized
  if "BEGIN_INTERVIEW".data.isPrefixOf normalized then
    let payload := o.beginInterview
    let st1 := { st with
      job_description := payload.job_description
      resume := payload.resume
      role := payload.role.getD st.role }
    if st1.job_description = [] then
      (interview_prompt "Paste job description (optional).".data "Interview setup".data,
       { s with interview_state := { st1 with stage := "job_desc" } })
    else
      (interview_prompt "Thanks. This will be a 10-minute interview. Ready?".data
        "Say Yes to begin".data,
       { s with interview_state := { st1 with stage := "ready" } })
  else if lower = "end".data then
    (.sessionEnded, end_session now s)
  else
    let s := add_interaction s (mkUserEntry normalized)
    if st.stage = "init" then
      (interview_prompt "What role are you interviewing for?".data "Interview setup".data,
       { s with interview_state := { st with stage := "role" } })
    else if st.stage = "role" then
      (interview_prompt "Paste job description (optional).".data "Interview setup".data,
       { s with interview_state := { st with role := normalized, stage := "job_desc" } })
    else if st.stage = "job_desc" then
      let st1 := if !is_skip lower then { st with job_description := normalized } else st
      (interview_prompt "Upload resume (optional).".data "Interview setup".data,
       { s with interview_state := { st1 with stage := "resume" } })
    else if st.stage = "resume" then
      let st1 := if !is_skip lower then { st with resume := normalized } else st
      (interview_prompt "Thanks. This will be a 10-minute interview. Ready?".data
        "Say Yes to begin".data,
       { s with interview_state := { st1 with stage := "ready" } })
    else if st.stage = "ready" then
      if !is_yes lower then
        (interview_prompt "No problem. Tell me when you are ready.".data "Waiting".data, s)
      else
        let st1 := { st with stage := "interview", started := true, start_time := some now }
        ask_next_interview_question now o.question
          { s with interview_state := st1 } st1 none
    else
      if should_end_interview now st then
        (.sessionEnded, end_session now s)
      else
        let evaluation := evaluate_interview_answer o.evalResp normalized
        let timed_out : Bool :=
          st.current_section == "technical" &&
            (match st.last_question_time with
             | some t => decide (90 < now - t)
             | none => false)
        if timed_out then
          let st1 := { st with hint_used := true }
          ask_next_interview_question now o.question
            { s with interview_state := st1 } st1
            (some "Let us move to the next question.".data)
        else if st.current_section == "technical" &&
            (evaluation.evaluation == "weak") && !st.hint_used then
          let st1 := { st with hint_used := true }
          (interview_prompt
            (pyOr evaluation.hint "Hint: Consider time complexity and fast lookup.".data)
            "Hint".data,
           { s with interview_state := st1 })
        else
          ask_next_interview_question now o.question s st
            (some (format_feedback evaluation))

/-! ## Public-speaking flow (`_handle_public_speaking_flow`) -/

/-- `CoachingEngine._public_speaking_prompt`. -/
def public_speaking_prompt (voice_text visual_text : List Char) : Resp :=
  .coach voice_text visual_text "evaluating"

/-- The 15-minute force-end check of the public-speaking flow. -/
def ps_time_up (now : ℚ) (st : PublicSpeakingState) : Bool :=
  match st.start_time with
  | some t => decide (15 * 60 ≤ now - t)
  | none => false

/-- `CoachingEngine._handle_public_speaking_flow` (same dead-code note on the
state re-initialization as for the interview flow). -/
def handle_public_speaking_flow (now : ℚ) (o : Oracles) (s : Session)
    (text : List Char) : Resp × Session :=
  let st := s.public_speaking_state
  let normalized := trimChars text
  let lower := pyLower normalized
  if "BEGIN_PUBLIC_SPEAKING".data.isPrefixOf normalized then
    let payload := o.beginSpeaking
    let st1 := { st with
      speaking_type := payload.speaking_type
      topic := payload.topic
      script := payload.script }
    if st1.speaking_type = [] then
      (public_speaking_prompt "What type of speaking do you want to practice?".data
        "Speaking type selection".data,
       { s with public_speaking_state := { st1 with stage := "type" } })
    else if st1.topic = [] then
      (public_speaking_prompt "Choose a topic or enter your own.".data
        "Topic selection".data,
       { s with public_speaking_state := { st1 with stage := "topic" } })
    else
      (public_speaking_prompt "You will speak for about 3 to 5 minutes. Ready?".data
        "Say Yes to begin".data,
       { s with public_speaking_state := { st1 with stage := "ready" } })
  else if is_public_speaking_done lower then
    (.sessionEnded, end_session now s)
  else if ps_time_up now st then
    (.sessionEnded, end_session now s)
  else
    let s := add_interaction s (mkUserEntry normalized)
    if st.stage = "init" then
      (public_speaking_prompt "What type of speaking do you want to practice?".data
        "Speaking type selection".data,
       { s with public_speaking_state := { st with stage := "type" } })
    else if st.stage = "type" then
      match normalize_speaking_type normalized with
      | some matched_type =>
        let st1 := { st with speaking_type := matched_type }
        if st1.topic ≠ [] then
          (public_speaking_prompt "Upload a script or outline (optional).".data
            "Optional script upload".data,
           { s with public_speaking_state := { st1 with stage := "script" } })
        else
          (public_speaking_prompt "Choose a topic or enter your own.".data
            "Topic selection".data,
           { s with public_speaking_state := { st1 with stage := "topic" } })
      | none =>
        let st1 := if st.topic = [] then { st with topic := normalized } else st
        let st2 := { st1 with
          speaking_type := pyOrStr st1.speaking_type "Presentation".data
          stage := "script" }
        (public_speaking_prompt "Upload a script or outline (optional).".data
          "Optional script upload".data,
         { s with public_speaking_state := st2 })
    else if st.stage = "topic" then
      let st1 := if !is_skip lower then { st with topic := normalized } else st
      if st1.topic = [] then
        (public_speaking_prompt "Choose a topic or enter your own.".data
          "Topic selection".data,
         { s with public_speaking_state := st1 })
      else
        (public_speaking_prompt "You will speak for about 3 to 5 minutes. Ready?".data
          "Say Yes to begin".data,
         { s with public_speaking_state := { st1 with stage := "ready" } })
    else if st.stage = "script" then
      let st1 := if !is_skip lower then { st with script := normalized } else st
      (public_speaking_prompt "You will speak for about 3 to 5 minutes. Ready?".data
        "Say Yes to begin".data,
       { s with public_speaking_state := { st1 with stage := "ready" } })
    else if st.stage = "ready" then
      if !is_yes lower then
        (public_speaking_prompt "No problem. Tell me when you are ready.".data
          "Waiting".data, s)
      else
        (public_speaking_prompt "Introduce yourself in 30 seconds.".data "Warm-up".data,
         { s with public_speaking_state :=
            { st with stage := "warmup", started := true, start_time := some now } })
    else if st.stage = "warmup" then
      (public_speaking_prompt
        ("Speak about ".data ++ pyOrStr st.topic "your topic".data ++ " for 3 minutes.".data)
        "Main speech".data,
       { s with public_speaking_state :=
          { st with stage := "main", main_speech_start := some now } })
    else if st.stage = "main" then
      let st1 := update_public_speaking_metrics st normalized
      (public_speaking_prompt (followup_question 0) "Follow-up 1 of 3".data,
       { s with public_speaking_state :=
          { st1 with stage := "followup", followup_index := 0 } })
    else if st.stage = "followup" then
      let st1 := update_public_speaking_metrics st normalized
      let next_index := st1.followup_index + 1
      if st1.followup_total ≤ next_index then
        (.sessionEnded, end_session now { s with public_speaking_state := st1 })
      else
        (public_speaking_prompt (followup_question next_index)
          ("Follow-up ".data ++ (toString (next_index + 1)).data ++ " of ".data ++
            (toString st1.followup_total).data),
         { s with public_speaking_state := { st1 with followup_index := next_index } })
    else
      (public_speaking_prompt "Let us continue.".data "Public speaking".data, s)

/-! ## Top-level turn handlers -/

/-- `CoachingEngine.process_text` for a session in hand: dispatch by mode. -/
def process_text (now : ℚ) (o : Oracles) (s : Session) (text : List Char) :
    Resp × Session :=
  if s.mode = "interview" then handle_interview_flow now o s text
  else if s.mode = "public_speaking" then handle_public_speaking_flow now o s text
  else process_text_freeform s.mode o.structured s text

/-- The barge-in consultation at the top of `process_audio`: the detector is
run for every mode except public speaking. -/
def audio_barge_check (s : Session) (transcript : List Char) :
    Option BargeInTrigger :=
  if s.mode ≠ "public_speaking" then
    should_trigger transcript (get_latest_biometric s) s.barge_in_sensitivity
  else none

/-- The interaction entry `_handle_barge_in` records. -/
def bargeEntry (trigger_type : String) : Entry :=
  { role := "assistant"
    content := bargeInMessage trigger_type
    visual_content := .str (bargeInMessage trigger_type)
    is_barge_in := true }

/-- `CoachingEngine._handle_barge_in`: canned feedback, recorded as a
`barge_in`-typed interaction, returned as a `barge_in` response — with no
model involvement. -/
def handle_barge_in (s : Session) (trigger : BargeInTrigger) : Resp × Session :=
  let text := bargeInMessage trigger.trigger_type
  let s1 := add_interaction s (bargeEntry trigger.trigger_type)
  (.bargeIn trigger text, s1)

/-- `CoachingEngine.process_audio` for a session in hand: consult the
detector (except for public speaking), short-circuit to the barge-in handler
on a trigger, otherwise delegate to `process_text` (all four mode helpers do
exactly that) and append one more assistant entry built from the response.
Every response dictionary built by this engine carries a `kind` or a `type`,
so the final re-wrapping branch is the identity. -/
def process_audio (now : ℚ) (o : Oracles) (s : Session) (transcript : List Char) :
    Resp × Session :=
  match audio_barge_check s transcript with
  | some trig => handle_barge_in s trig
  | none =>
    let rs := process_text now o s transcript
    let assistant_text :=
      pyOr (Resp.get_voice_text rs.1)
        (pyOr (Resp.get_narration rs.1) ((Resp.get_text rs.1).getD []))
    let visual_content0 := (Resp.get_visual_content rs.1).getD []
    let entry_visual : VisualContentVal :=
      if visual_content0 = [] then
        match Resp.get_visual rs.1 with
        | some vp => vcOrEmpty vp.content
        | none => .str []
      else .str visual_content0
    let s2 := add_interaction rs.2
      { role := "assistant", content := assistant_text, visual_content := entry_visual }
    (rs.1, s2)

/-! ## Demonstration values used by concrete instances -/

def demoOracle : Oracles := {}

def demoInterview : Session := create_session "sid" "demo" "interview" 0

def demoTutoring : Session := create_session "sid" "demo" "tutoring" 0

/-- `n` identical user interactions appended in sequence. -/
def appendConst (s : Session) (n : ℕ) : Session :=
  addInteractions s (List.replicate n (mkUserEntry "x".data))

def demoEndState : InterviewState :=
  { stage := "interview", start_time := some 0, question_count := 10 }

def demoFrameA : BiometricFrame := { heart_rate := some 80, posture_score := some 5 }

def demoFrameB : BiometricFrame := { heart_rate := some 60, posture_score := some 9 }

def emptyStore : SessionStore := fun _ => none

def stepOracle : Oracles := { structured := { kind := some "step", step := some 0 } }

def demoTrigger : BargeInTrigger :=
  { trigger_type := "filler_words", confidence := ((1:ℕ):ℚ)/3,
    triggers := ["filler_words"], biometric_context := none }

/-! ## Helper lemmas: how each operation touches the two history lists -/

lemma compress_context_context_history (s : Session) :
    (compress_context s).context_history = s.context_history := by
  unfold compress_context
  split <;> rfl

lemma compress_context_tutoring_step (s : Session) :
    (compress_context s).tutoring_step = s.tutoring_step := by
  unfold compress_context
  split <;> rfl

lemma add_interaction_context_history (s : Session) (e : Entry) :
    (add_interaction s e).context_history = s.context_history ++ [toHistoryEntry e] := by
  unfold add_interaction
  dsimp only
  split
  · exact compress_context_context_history _
  · rfl

lemma add_interaction_interactions (s : Session) (e : Entry)
    (h : s.interactions.length ≤ 99) :
    (add_interaction s e).interactions = s.interactions ++ [InteractionRecord.entry e] := by
  unfold add_interaction
  dsimp only
  rw [if_neg]
  simp only [List.length_append, List.length_singleton, not_lt]
  omega

lemma add_interaction_tutoring_step (s : Session) (e : Entry) :
    (add_interaction s e).tutoring_step = s.tutoring_step := by
  unfold add_interaction
  dsimp only
  split
  · exact compress_context_tutoring_step _
  · rfl

lemma end_session_context_history (now : ℚ) (s : Session) :
    (end_session now s).context_history = s.context_history := by
  unfold end_session
  dsimp only
  split
  · exact compress_context_context_history _
  · rfl

lemma end_session_interactions (now : ℚ) (s : Session)
    (h : s.interactions.length ≤ 30) :
    (end_session now s).interactions = s.interactions := by
  unfold end_session
  dsimp only
  split
  · unfold compress_context
    rw [if_pos]
    exact h
  · rfl

lemma ask_next_context_history (now : ℚ) (q : Option (List Char)) (s : Session)
    (st : InterviewState) (fb : Option (List Char)) :
    (ask_next_interview_question now q s st fb).2.context_history =
      s.context_history := by
  unfold ask_next_interview_question
  split
  · exact end_session_context_history now s
  · rfl

lemma ask_next_interactions (now : ℚ) (q : Option (List Char)) (s : Session)
    (st : InterviewState) (fb : Option (List Char))
    (h : s.interactions.length ≤ 30) :
    (ask_next_interview_question now q s st fb).2.interactions = s.interactions := by
  unfold ask_next_interview_question
  split
  · exact end_session_interactions now s h
  · rfl

lemma bargeTriggers_length (t : List Char) (b : Option BiometricFrame) :
    (bargeTriggers t b).length = claimSignalCount t b := by
  unfold bargeTriggers claimSignalCount
  cases b with
  | none => dsimp only; split <;> simp
  | some f => dsimp only; split_ifs <;> simp [List.length_append]

lemma should_trigger_isSome (t : List Char) (b : Option BiometricFrame) (sens : ℚ) :
    (should_trigger t b sens).isSome = true ↔
      codeThreshold sens ≤ (claimSignalCount t b : ℤ) := by
  unfold should_trigger codeThreshold
  dsimp only
  rw [← bargeTriggers_length t b]
  split
  · next h => simp only [Option.isSome_some, true_iff]; exact h
  · next h => simp only [Option.isSome_none, Bool.false_eq_true, false_iff]; exact h

lemma pyInt_of_nonneg (q : ℚ) (h : 0 ≤ q) : pyInt q = ⌊q⌋ := if_pos h

lemma codeThreshold_seven_tenths : codeThreshold (7/10) = 1 := by
  unfold codeThreshold
  rw [show (3 * (1 - 7/10) : ℚ) = 9/10 by norm_num,
      pyInt_of_nonneg _ (by norm_num),
      show ⌊(9/10 : ℚ)⌋ = 0 by norm_num]
  norm_num

lemma codeThreshold_zero : codeThreshold 0 = 3 := by
  unfold codeThreshold
  rw [show (3 * (1 - 0) : ℚ) = 3 by norm_num,
      pyInt_of_nonneg _ (by norm_num),
      show ⌊(3 : ℚ)⌋ = 3 by norm_num]
  norm_num

lemma codeThreshold_half : codeThreshold (1/2) = 1 := by
  unfold codeThreshold
  rw [show (3 * (1 - 1/2) : ℚ) = 3/2 by norm_num,
      pyInt_of_nonneg _ (by norm_num),
      show ⌊(3/2 : ℚ)⌋ = 1 by norm_num]
  norm_num

lemma claimThreshold_half : claimThreshold (1/2) = 2 := by
  unfold claimThreshold
  rw [show (3 * (1 - 1/2) : ℚ) = 3/2 by norm_num,
      show round (3/2 : ℚ) = 2 by rw [round_eq]; norm_num]
  norm_num

/-- C1 (corrected): the detector fires exactly when the number of raised
signals (as the claim describes them) reaches the threshold, but the
threshold is `max(1, int(3 * (1 - sensitivity)))` — `int` truncates while the
claim's formula rounds; the two particular threshold values the claim states
do hold. -/
theorem barge_in_trigger_threshold (t : List Char) (b : Option BiometricFrame)
    (sens : ℚ) (h0 : 0 ≤ sens) (h1 : sens ≤ 1) :
    ((should_trigger t b sens).isSome = true ↔
      codeThreshold sens ≤ (claimSignalCount t b : ℤ)) ∧
    codeThreshold (7/10) = 1 ∧ codeThreshold 0 = 3 :=
  ⟨should_trigger_isSome t b sens, codeThreshold_seven_tenths, codeThreshold_zero⟩

/-- C1 witness: a transcript with three filler occurrences at sensitivity 0.7
triggers. -/
theorem barge_in_trigger_threshold_witness :
    (0:ℚ) ≤ 7/10 ∧ (7/10:ℚ) ≤ 1 ∧
    (should_trigger "um um um".data none (7/10)).isSome = true :=
  ⟨by norm_num, by norm_num,
   (barge_in_trigger_threshold "um um um".data none (7/10) (by norm_num)
     (by norm_num)).1.mpr
     (by rw [codeThreshold_seven_tenths,
             show claimSignalCount "um um um".data none = 1 by decide]
         decide)⟩

/-- C1 counterexample: at sensitivity 0.5 the claim's rounded threshold is 2,
only one signal is raised, yet the code triggers — so the claimed
"trigger iff signals ≥ max(1, round(3(1-s)))" biconditional is false there. -/
theorem barge_in_round_formula_counterexample :
    claimThreshold (1/2) = 2 ∧
    claimSignalCount "um um um".data none = 1 ∧
    (should_trigger "um um um".data none (1/2)).isSome = true ∧
    ¬(claimThreshold (1/2) ≤ (claimSignalCount "um um um".data none : ℤ)) := by
  have hs : claimSignalCount "um um um".data none = 1 := by decide
  refine ⟨claimThreshold_half, hs, ?_, ?_⟩
  · rw [should_trigger_isSome, codeThreshold_half, hs]
    decide
  · rw [claimThreshold_half, hs]
    decide

/-- C4 (confirmed): the interview section schedule maps index 0 to warmup,
1–2 to background, 3–6 to technical, 7–8 to behavioral and 9+ to wrapup,
with the listed particular values. -/
theorem interview_section_schedule (i : ℤ) (h : 0 ≤ i) :
    (i = 0 → section_for_question i = "warmup") ∧
    (1 ≤ i ∧ i ≤ 2 → section_for_question i = "background") ∧
    (3 ≤ i ∧ i ≤ 6 → section_for_question i = "technical") ∧
    (7 ≤ i ∧ i ≤ 8 → section_for_question i = "behavioral") ∧
    (9 ≤ i → section_for_question i = "wrapup") ∧
    section_for_question 0 = "warmup" ∧ section_for_question 1 = "background" ∧
    section_for_question 2 = "background" ∧ section_for_question 3 = "technical" ∧
    section_for_question 6 = "technical" ∧ section_for_question 7 = "behavioral" ∧
    section_for_question 8 = "behavioral" ∧ section_for_question 9 = "wrapup" := by
  refine ⟨?_, ?_, ?_, ?_, ?_, by decide, by decide, by decide, by decide,
    by decide, by decide, by decide, by decide⟩ <;>
  · intro hi
    unfold section_for_question
    split_ifs <;> first | rfl | omega

/-- C4 witness at index 5. -/
theorem interview_section_schedule_witness :
    (0:ℤ) ≤ 5 ∧ section_for_question 5 = "technical" :=
  ⟨by decide, (interview_section_schedule 5 (by decide)).2.2.1 ⟨by decide, by decide⟩⟩

/-- C7 (confirmed): with the default budgets and a started interview, the
should-end predicate holds exactly when 10 questions were asked or 900
seconds elapsed, each condition sufficing on its own. -/
theorem interview_end_condition (now t : ℚ) (st : InterviewState)
    (hq : st.max_questions = 10) (hm : st.max_minutes = 15)
    (hs : st.start_time = some t) :
    (should_end_interview now st = true ↔
      10 ≤ st.question_count ∨ 900 ≤ now - t) ∧
    (10 ≤ st.question_count → should_end_interview now st = true) ∧
    (900 ≤ now - t → should_end_interview now st = true) := by
  have h900 : ((15:ℤ):ℚ) * 60 = 900 := by norm_num
  have hiff : should_end_interview now st = true ↔
      10 ≤ st.question_count ∨ 900 ≤ now - t := by
    simp only [should_end_interview, hq, hm, hs, h900]
    constructor
    · intro h
      split at h
      · left; assumption
      · right; simpa using h
    · intro h
      rcases h with h | h
      · rw [if_pos h]
      · split
        · rfl
        · simpa using h
  exact ⟨hiff, fun h => hiff.mpr (Or.inl h), fun h => hiff.mpr (Or.inr h)⟩

/-- C7 witness: ten questions asked ends the interview at any time. -/
theorem interview_end_condition_witness :
    demoEndState.max_questions = 10 ∧ should_end_interview 0 demoEndState = true :=
  ⟨rfl, (interview_end_condition 0 0 demoEndState rfl rfl rfl).2.1 (by decide)⟩

lemma pickPeak_mem (best : ℚ × BiometricFrame) (l : List (ℚ × BiometricFrame)) :
    pickPeak best l = best ∨ pickPeak best l ∈ l := by
  induction l generalizing best with
  | nil => left; rfl
  | cons x rest ih =>
    simp only [pickPeak]
    rcases ih (if best.1 < x.1 then x else best) with h | h
    · rw [h]
      split
      · right; exact List.mem_cons_self x rest
      · left; rfl
    · right; exact List.mem_cons_of_mem x h

lemma pickPeak_le (best : ℚ × BiometricFrame) (l : List (ℚ × BiometricFrame)) :
    best.1 ≤ (pickPeak best l).1 ∧ ∀ x ∈ l, x.1 ≤ (pickPeak best l).1 := by
  induction l generalizing best with
  | nil => exact ⟨le_refl _, by simp⟩
  | cons x rest ih =>
    obtain ⟨h1, h2⟩ := ih (if best.1 < x.1 then x else best)
    simp only [pickPeak]
    constructor
    · refine le_trans ?_ h1
      split
      · next hlt => exact le_of_lt hlt
      · exact le_refl _
    · intro y hy
      rcases List.mem_cons.mp hy with rfl | hy'
      · refine le_trans ?_ h1
        split
        · exact le_refl _
        · next hlt => exact le_of_not_lt hlt
      · exact h2 y hy'

/-- C8 (confirmed): the peak confidence frame is a frame of the timeline
maximizing `posture_score - heart_rate/100`, and an empty timeline yields
`none` rather than an error. -/
theorem peak_confidence_frame (tl : List BiometricFrame) (f : BiometricFrame) :
    find_peak_confidence [] = none ∧
    (tl ≠ [] → (find_peak_confidence tl).isSome = true) ∧
    (find_peak_confidence tl = some f →
      f ∈ tl ∧ ∀ g ∈ tl, frameScore g ≤ frameScore f) := by
  refine ⟨rfl, ?_, ?_⟩
  · intro h
    cases tl with
    | nil => exact absurd rfl h
    | cons t ts => simp [find_peak_confidence]
  · intro h
    cases tl with
    | nil => simp [find_peak_confidence] at h
    | cons t ts =>
      have h' : (pickPeak (frameScore t, t) (ts.map fun g => (frameScore g, g))).2 = f := by
        simpa [find_peak_confidence] using h
      obtain hm := pickPeak_mem (frameScore t, t) (ts.map fun g => (frameScore g, g))
      obtain ⟨hle0, hleall⟩ := pickPeak_le (frameScore t, t) (ts.map fun g => (frameScore g, g))
      have hmem : (pickPeak (frameScore t, t) (ts.map fun g => (frameScore g, g))).2 ∈ t :: ts ∧
          (pickPeak (frameScore t, t) (ts.map fun g => (frameScore g, g))).1 =
            frameScore (pickPeak (frameScore t, t) (ts.map fun g => (frameScore g, g))).2 := by
        rcases hm with h1 | h1
        · rw [h1]
          exact ⟨List.mem_cons_self t ts, rfl⟩
        · obtain ⟨g, hg, hEq⟩ := List.mem_map.mp h1
          rw [← hEq]
          exact ⟨List.mem_cons_of_mem t hg, rfl⟩
      constructor
      · rw [← h']
        exact hmem.1
      · intro g hg
        rw [← h', ← hmem.2]
        rcases List.mem_cons.mp hg with rfl | hg'
        · exact hle0
        · exact hleall _ (List.mem_map_of_mem _ hg')

lemma demo_find_peak :
    find_peak_confidence [demoFrameA, demoFrameB] = some demoFrameB := by
  have hlt : frameScore demoFrameA < frameScore demoFrameB := by
    norm_num [frameScore, demoFrameA, demoFrameB]
  unfold find_peak_confidence
  simp only [List.map_cons, List.map_nil, pickPeak]
  rw [if_pos hlt]

/-- C8 witness on a two-frame timeline. -/
theorem peak_confidence_frame_witness :
    ([demoFrameA, demoFrameB] ≠ ([] : List BiometricFrame)) ∧
    demoFrameB ∈ [demoFrameA, demoFrameB] ∧
    ∀ g ∈ [demoFrameA, demoFrameB], frameScore g ≤ frameScore demoFrameB := by
  have h := (peak_confidence_frame [demoFrameA, demoFrameB] demoFrameB).2.2 demo_find_peak
  exact ⟨by decide, h.1, h.2⟩

/-- C10 (confirmed): at the store's public interface, `add_interaction` and
`add_biometric_data` on an unknown session id return without error and leave
every session's state unchanged. -/
theorem unknown_session_noop (st : SessionStore) (session_id : String)
    (e : Entry) (b : BiometricFrame) (h : st session_id = none) :
    store_add_interaction st session_id e = st ∧
    store_add_biometric st session_id b = st ∧
    (∀ k, store_add_interaction st session_id e k = st k ∧
          store_add_biometric st session_id b k = st k) := by
  have h1 : store_add_interaction st session_id e = st := by
    unfold store_add_interaction
    rw [h]
  have h2 : store_add_biometric st session_id b = st := by
    unfold store_add_biometric
    rw [h]
  exact ⟨h1, h2, fun k => ⟨by rw [h1], by rw [h2]⟩⟩

/-! ## C3: the interview question normalizer -/

lemma mem_takeUntilSub {a : Char} (pat : List Char) (l : List Char)
    (h : a ∈ takeUntilSub pat l) : a ∈ l := by
  induction l with
  | nil => simpa [takeUntilSub] using h
  | cons c rest ih =>
    rw [takeUntilSub] at h
    split at h
    · simp at h
    · rcases List.mem_cons.mp h with rfl | h'
      · exact List.mem_cons_self _ _
      · exact List.mem_cons_of_mem _ (ih h')

lemma mem_trimChars {a : Char} (l : List Char) (h : a ∈ trimChars l) : a ∈ l := by
  unfold trimChars at h
  have h1 := List.mem_reverse.mp h
  have h2 := (List.dropWhile_sublist _).mem h1
  have h3 := List.mem_reverse.mp h2
  exact (List.dropWhile_sublist _).mem h3

lemma q_not_mem_takeWhile (l : List Char) :
    '?' ∉ l.takeWhile (fun c => c ≠ '?') := by
  intro h
  have := List.mem_takeWhile_imp h
  simp at this

lemma q_mem_of_getLast (l : List Char) (h : l.getLast? = some '?') : '?' ∈ l := by
  obtain ⟨hne, heq⟩ := List.mem_getLast?_eq_getLast h
  rw [heq]
  exact List.getLast_mem hne

/-- C3 (corrected): whenever the whitespace-collapsed question is non-empty
and — when it contains a `?` — the stripped text before the first `?` is
non-empty, the normalizer's output ends in `?` and contains exactly one `?`.
(Inputs whose first `?` has only whitespace before it are returned unchanged
and can carry several question marks; whitespace-only inputs get a canned
statement, not a question.) -/
theorem interview_question_normalization (q : List Char)
    (h1 : normSpace q ≠ [])
    (h2 : '?' ∈ normSpace q →
      trimChars ((normSpace q).takeWhile (fun c => c ≠ '?')) ≠ []) :
    (normalize_interview_question q).getLast? = some '?' ∧
    (normalize_interview_question q).count '?' = 1 := by
  unfold normalize_interview_question
  rw [if_neg h1]
  by_cases hq : '?' ∈ normSpace q
  · rw [if_pos hq, if_pos (h2 hq)]
    refine ⟨List.getLast?_concat _, ?_⟩
    rw [List.count_append,
        List.count_eq_zero.mpr
          (fun hmem => q_not_mem_takeWhile _ (mem_trimChars _ hmem))]
    rfl
  · rw [if_neg hq]
    have hlast : ¬ (normSpace q).getLast? = some '?' :=
      fun heq => hq (q_mem_of_getLast _ heq)
    have hcount : (normSpace q).count '?' = 0 := List.count_eq_zero.mpr hq
    have happended :
        ((normSpace q) ++ ['?']).getLast? = some '?' ∧
        ((normSpace q) ++ ['?']).count '?' = 1 := by
      refine ⟨List.getLast?_concat _, ?_⟩
      rw [List.count_append, hcount]
      rfl
    cases hfind : [". ".data, "\n".data, "; ".data].find?
        (fun d => containsSub d (normSpace q)) with
    | some d =>
      dsimp only
      by_cases hfst : trimChars (takeUntilSub d (normSpace q)) ≠ []
      · rw [if_pos hfst]
        refine ⟨List.getLast?_concat _, ?_⟩
        rw [List.count_append,
            List.count_eq_zero.mpr
              (fun hmem => hq (mem_takeUntilSub d _ (mem_trimChars _ hmem)))]
        rfl
      · rw [if_neg hfst, if_pos (by simpa using hlast)]
        exact happended
    | none =>
      dsimp only
      rw [if_pos (by simpa using hlast)]
      exact happended

/-- C3 witness: the claim's own example input normalizes to a single
well-formed question. -/
theorem interview_question_normalization_witness :
    normSpace "What is recursion and why use it".data ≠ [] ∧
    (normalize_interview_question "What is recursion and why use it".data).getLast? =
      some '?' ∧
    (normalize_interview_question "What is recursion and why use it".data).count '?' = 1 := by
  have h := interview_question_normalization "What is recursion and why use it".data
    (by decide)
    (fun hmem => absurd hmem (by decide))
  exact ⟨by decide, h.1, h.2⟩

/-- C3 counterexample: the non-empty model question `"? really?"` is returned
unchanged, with two question marks — the normalizer does not guarantee
exactly one `?` for every non-empty input. -/
theorem question_mark_count_counterexample :
    "? really?".data ≠ [] ∧
    normalize_interview_question "? really?".data = "? really?".data ∧
    (normalize_interview_question "? really?".data).count '?' = 2 := by
  refine ⟨by decide, by decide, by decide⟩

/-- C10 witness on the empty store. -/
theorem unknown_session_noop_witness :
    store_add_interaction emptyStore "missing" (mkUserEntry "hi".data) = emptyStore ∧
    store_add_biometric emptyStore "missing" {} = emptyStore := by
  have h := unknown_session_noop emptyStore "missing" (mkUserEntry "hi".data) {} rfl
  exact ⟨h.1, h.2.1⟩

/-! ## C2: tutoring step monotonicity -/

lemma repair_step_response_step (r : GeminiStructured) :
    (repair_step_response r).step = r.step := by
  unfold repair_step_response
  dsimp only
  repeat' split
  all_goals rfl

lemma lt_resolve_step (c : ℤ) (p : Option ℤ) : c < resolve_step c p := by
  cases p with
  | none => show c < c + 1; omega
  | some k =>
    show c < if k ≤ c then c + 1 else k
    split <;> omega

lemma resolve_step_invalid (c : ℤ) (p : Option ℤ)
    (h : p = none ∨ ∃ k, p = some k ∧ k ≤ c) : resolve_step c p = c + 1 := by
  rcases h with rfl | ⟨k, rfl, hk⟩
  · rfl
  · show (if k ≤ c then c + 1 else k) = c + 1
    rw [if_pos hk]

/-- C2 (confirmed): in tutoring mode, a `step` model reply leaves the session
with a strictly larger `tutoring_step`, the returned response carries exactly
the stored step, and a proposal that is not an integer strictly greater than
the current step is overwritten with `current_step + 1`. -/
theorem tutoring_step_monotonicity (now : ℚ) (o : Oracles) (s : Session)
    (text : List Char) (hmode : s.mode = "tutoring")
    (hkind : o.structured.kind = some "step") :
    s.tutoring_step < (process_text now o s text).2.tutoring_step ∧
    (∃ r', (process_text now o s text).1 = .structured r' ∧
      r'.step = some ((process_text now o s text).2.tutoring_step)) ∧
    ((o.structured.step = none ∨
        ∃ p, o.structured.step = some p ∧ p ≤ s.tutoring_step) →
      (process_text now o s text).2.tutoring_step = s.tutoring_step + 1) := by
  simp only [process_text, hmode]
  rw [if_neg (by decide), if_neg (by decide)]
  unfold process_text_freeform
  dsimp only
  rw [if_pos (Or.inl hkind), if_pos hkind]
  simp only [add_interaction_tutoring_step]
  refine ⟨lt_resolve_step _ _, ⟨_, rfl, ?_⟩, fun h => ?_⟩
  · rw [repair_step_response_step]
  · exact resolve_step_invalid _ _ h

/-- C2 witness: a stale proposed step 0 at current step 0 is replaced by 1. -/
theorem tutoring_step_monotonicity_witness :
    demoTutoring.mode = "tutoring" ∧
    demoTutoring.tutoring_step <
      (process_text 0 stepOracle demoTutoring "explain".data).2.tutoring_step ∧
    (process_text 0 stepOracle demoTutoring "explain".data).2.tutoring_step =
      demoTutoring.tutoring_step + 1 := by
  have h := tutoring_step_monotonicity 0 stepOracle demoTutoring "explain".data rfl rfl
  exact ⟨rfl, h.1, h.2.2 (Or.inr ⟨0, rfl, by decide⟩)⟩

/-! ## C9: barge-in consultation scope on the audio path -/

lemma demo_should_trigger :
    should_trigger "um um um".data none (7/10) = some demoTrigger := by
  have hcond : max 1 (pyInt (3 * (1 - 7/10 : ℚ))) ≤
      ((["filler_words"] : List String).length : ℤ) := by
    rw [show max 1 (pyInt (3 * (1 - 7/10 : ℚ))) = 1 from codeThreshold_seven_tenths]
    decide
  unfold should_trigger
  dsimp only
  rw [show bargeTriggers "um um um".data none = ["filler_words"] from by decide,
      if_pos hcond]
  rfl

lemma audio_check_demo :
    audio_barge_check demoInterview "um um um".data = some demoTrigger := by
  unfold audio_barge_check
  rw [if_pos (by decide : demoInterview.mode ≠ "public_speaking")]
  exact demo_should_trigger

/-- C9 (corrected): the barge-in detector is skipped only for public-speaking
sessions — it is consulted for interview sessions as well; when it triggers,
the turn short-circuits to the barge-in handler, which records a barge-in
interactions entry and returns the barge-in response with no dependence on
the inference oracle. -/
theorem audio_barge_in_scope (now : ℚ) (o : Oracles) (s : Session) (t : List Char)
    (trig : BargeInTrigger) :
    (s.mode = "public_speaking" → audio_barge_check s t = none) ∧
    (s.mode ≠ "public_speaking" →
      audio_barge_check s t =
        should_trigger t (get_latest_biometric s) s.barge_in_sensitivity) ∧
    (audio_barge_check s t = some trig →
      process_audio now o s t = handle_barge_in s trig ∧
      (process_audio now o s t).1 = .bargeIn trig (bargeInMessage trig.trigger_type) ∧
      (s.interactions.length ≤ 99 →
        (process_audio now o s t).2.interactions =
          s.interactions ++ [.entry (bargeEntry trig.trigger_type)]) ∧
      (∀ o2 : Oracles, process_audio now o2 s t = process_audio now o s t)) := by
  refine ⟨?_, ?_, ?_⟩
  · intro h
    unfold audio_barge_check
    rw [if_neg (by simp [h] : ¬ s.mode ≠ "public_speaking")]
  · intro h
    unfold audio_barge_check
    rw [if_pos h]
  · intro h
    have hpa : ∀ o' : Oracles, process_audio now o' s t = handle_barge_in s trig := by
      intro o'
      unfold process_audio
      rw [h]
    refine ⟨hpa o, ?_, ?_, fun o2 => (hpa o2).trans (hpa o).symm⟩
    · rw [hpa o]
      rfl
    · intro hlen
      rw [hpa o]
      unfold handle_barge_in
      dsimp only
      exact add_interaction_interactions s _ hlen

/-- C9 witness: a triggering interview-mode audio turn equals the barge-in
handler's outcome. -/
theorem audio_barge_in_scope_witness :
    audio_barge_check demoInterview "um um um".data = some demoTrigger ∧
    process_audio 0 demoOracle demoInterview "um um um".data =
      handle_barge_in demoInterview demoTrigger := by
  have h := (audio_barge_in_scope 0 demoOracle demoInterview "um um um".data
    demoTrigger).2.2 audio_check_demo
  exact ⟨audio_check_demo, h.1⟩

/-- C9 counterexample: an interview-mode session (not a tutoring-like
free-form one) does get the detector consulted and barge-in triggered — the
claim's "never for interview" is false. -/
theorem interview_barge_in_counterexample :
    demoInterview.mode = "interview" ∧
    audio_barge_check demoInterview "um um um".data = some demoTrigger ∧
    (process_audio 0 demoOracle demoInterview "um um um".data).1 =
      .bargeIn demoTrigger (bargeInMessage "filler_words") ∧
    (process_audio 0 demoOracle demoInterview "um um um".data).2.interactions =
      [.entry (bargeEntry "filler_words")] := by
  have hpa : process_audio 0 demoOracle demoInterview "um um um".data =
      handle_barge_in demoInterview demoTrigger := by
    unfold process_audio
    rw [audio_check_demo]
  refine ⟨rfl, audio_check_demo, ?_, ?_⟩
  · rw [hpa]
    rfl
  · rw [hpa]
    unfold handle_barge_in
    dsimp only
    rw [add_interaction_interactions _ _ (by decide)]
    rfl

/-! ## C5: what each turn appends to the history lists -/

set_option maxHeartbeats 1000000 in
lemma interview_flow_appends_user (now : ℚ) (o : Oracles) (s : Session)
    (text : List Char)
    (hb : ¬("BEGIN_INTERVIEW".data.isPrefixOf (trimChars text) = true))
    (he : pyLower (trimChars text) ≠ "end".data)
    (hlen : s.interactions.length ≤ 29) :
    (handle_interview_flow now o s text).2.context_history =
      s.context_history ++ [toHistoryEntry (mkUserEntry (trimChars text))] ∧
    (handle_interview_flow now o s text).2.interactions =
      s.interactions ++ [.entry (mkUserEntry (trimChars text))] := by
  have hu_hist := add_interaction_context_history s (mkUserEntry (trimChars text))
  have hu := add_interaction_interactions s (mkUserEntry (trimChars text)) (by omega)
  have hl2 : (add_interaction s (mkUserEntry (trimChars text))).interactions.length ≤ 30 := by
    rw [hu]
    simp only [List.length_append, List.length_singleton]
    omega
  unfold handle_interview_flow
  dsimp only
  rw [if_neg hb, if_neg he]
  by_cases h1 : s.interview_state.stage = "init"
  · rw [if_pos h1]
    exact ⟨hu_hist, hu⟩
  rw [if_neg h1]
  by_cases h2 : s.interview_state.stage = "role"
  · rw [if_pos h2]
    exact ⟨hu_hist, hu⟩
  rw [if_neg h2]
  by_cases h3 : s.interview_state.stage = "job_desc"
  · rw [if_pos h3]
    exact ⟨hu_hist, hu⟩
  rw [if_neg h3]
  by_cases h4 : s.interview_state.stage = "resume"
  · rw [if_pos h4]
    exact ⟨hu_hist, hu⟩
  rw [if_neg h4]
  by_cases h5 : s.interview_state.stage = "ready"
  · rw [if_pos h5]
    by_cases h6 : (!is_yes (pyLower (trimChars text))) = true
    · rw [if_pos h6]
      exact ⟨hu_hist, hu⟩
    · rw [if_neg h6]
      constructor
      · exact (ask_next_context_history _ _ _ _ _).trans hu_hist
      · refine Eq.trans (ask_next_interactions _ _ _ _ _ ?_) hu
        exact hl2
  rw [if_neg h5]
  by_cases h7 : should_end_interview now s.interview_state = true
  · rw [if_pos h7]
    constructor
    · exact (end_session_context_history _ _).trans hu_hist
    · refine Eq.trans (end_session_interactions _ _ ?_) hu
      exact hl2
  rw [if_neg h7]
  split
  · constructor
    · exact (ask_next_context_history _ _ _ _ _).trans hu_hist
    · refine Eq.trans (ask_next_interactions _ _ _ _ _ ?_) hu
      exact hl2
  split
  · exact ⟨hu_hist, hu⟩
  · constructor
    · exact (ask_next_context_history _ _ _ _ _).trans hu_hist
    · refine Eq.trans (ask_next_interactions _ _ _ _ _ ?_) hu
      exact hl2

set_option maxHeartbeats 1000000 in
lemma ps_flow_appends_user (now : ℚ) (o : Oracles) (s : Session) (text : List Char)
    (hb : ¬("BEGIN_PUBLIC_SPEAKING".data.isPrefixOf (trimChars text) = true))
    (hd : ¬(is_public_speaking_done (pyLower (trimChars text)) = true))
    (ht : ¬(ps_time_up now s.public_speaking_state = true))
    (hlen : s.interactions.length ≤ 29) :
    (handle_public_speaking_flow now o s text).2.context_history =
      s.context_history ++ [toHistoryEntry (mkUserEntry (trimChars text))] ∧
    (handle_public_speaking_flow now o s text).2.interactions =
      s.interactions ++ [.entry (mkUserEntry (trimChars text))] := by
  have hu_hist := add_interaction_context_history s (mkUserEntry (trimChars text))
  have hu := add_interaction_interactions s (mkUserEntry (trimChars text)) (by omega)
  have hl2 : (add_interaction s (mkUserEntry (trimChars text))).interactions.length ≤ 30 := by
    rw [hu]
    simp only [List.length_append, List.length_singleton]
    omega
  unfold handle_public_speaking_flow
  dsimp only
  rw [if_neg hb, if_neg hd, if_neg ht]
  by_cases h1 : s.public_speaking_state.stage = "init"
  · rw [if_pos h1]
    exact ⟨hu_hist, hu⟩
  rw [if_neg h1]
  by_cases h2 : s.public_speaking_state.stage = "type"
  · rw [if_pos h2]
    cases hnt : normalize_speaking_type (trimChars text) with
    | none =>
      dsimp only
      exact ⟨hu_hist, hu⟩
    | some mt =>
      dsimp only
      split <;> exact ⟨hu_hist, hu⟩
  rw [if_neg h2]
  by_cases h3 : s.public_speaking_state.stage = "topic"
  · rw [if_pos h3]
    split <;> split <;> exact ⟨hu_hist, hu⟩
  rw [if_neg h3]
  by_cases h4 : s.public_speaking_state.stage = "script"
  · rw [if_pos h4]
    exact ⟨hu_hist, hu⟩
  rw [if_neg h4]
  by_cases h5 : s.public_speaking_state.stage = "ready"
  · rw [if_pos h5]
    split <;> exact ⟨hu_hist, hu⟩
  rw [if_neg h5]
  by_cases h6 : s.public_speaking_state.stage = "warmup"
  · rw [if_pos h6]
    exact ⟨hu_hist, hu⟩
  rw [if_neg h6]
  by_cases h7 : s.public_speaking_state.stage = "main"
  · rw [if_pos h7]
    exact ⟨hu_hist, hu⟩
  rw [if_neg h7]
  by_cases h8 : s.public_speaking_state.stage = "followup"
  · rw [if_pos h8]
    split
    · constructor
      · exact (end_session_context_history _ _).trans hu_hist
      · refine Eq.trans (end_session_interactions _ _ ?_) hu
        exact hl2
    · exact ⟨hu_hist, hu⟩
  rw [if_neg h8]
  exact ⟨hu_hist, hu⟩

set_option maxHeartbeats 1000000 in
lemma freeform_step_appends (now : ℚ) (o : Oracles) (s : Session) (text : List Char)
    (hmode : s.mode = "tutoring")
    (hkind : o.structured.kind = some "step" ∨ o.structured.kind = some "check_in")
    (hlen : s.interactions.length ≤ 98) :
    ∃ r', (process_text now o s text).1 = .structured r' ∧
      (step_branch_entry r').role = "assistant" ∧
      (process_text now o s text).2.context_history =
        s.context_history ++
          [toHistoryEntry (mkUserEntry text), toHistoryEntry (step_branch_entry r')] ∧
      (process_text now o s text).2.interactions =
        s.interactions ++
          [.entry (mkUserEntry text), .entry (step_branch_entry r')] := by
  have hu_hist := add_interaction_context_history s (mkUserEntry text)
  have hu := add_interaction_interactions s (mkUserEntry text) (by omega)
  have hl2 : (add_interaction s (mkUserEntry text)).interactions.length ≤ 99 := by
    rw [hu]
    simp only [List.length_append, List.length_singleton]
    omega
  simp only [process_text, hmode]
  rw [if_neg (by decide), if_neg (by decide)]
  unfold process_text_freeform
  dsimp only
  rw [if_pos hkind]
  by_cases hstep : o.structured.kind = some "step"
  · rw [if_pos hstep]
    dsimp only
    refine ⟨_, rfl, rfl, ?_, ?_⟩
    · rw [add_interaction_context_history]
      dsimp only
      rw [hu_hist, List.append_assoc]
      rfl
    · refine Eq.trans (add_interaction_interactions _ _ ?_) ?_
      · exact hl2
      · dsimp only
        rw [hu, List.append_assoc]
        rfl
  · rw [if_neg hstep]
    dsimp only
    refine ⟨_, rfl, rfl, ?_, ?_⟩
    · rw [add_interaction_context_history, hu_hist, List.append_assoc]
      rfl
    · refine Eq.trans (add_interaction_interactions _ _ hl2) ?_
      rw [hu, List.append_assoc]
      rfl

lemma freeform_fallback_appends_user_only (now : ℚ) (o : Oracles) (s : Session)
    (text : List Char) (hmode : s.mode = "tutoring")
    (hkind : o.structured.kind = none)
    (hlen : s.interactions.length ≤ 99) :
    (process_text now o s text).2.context_history =
      s.context_history ++ [toHistoryEntry (mkUserEntry text)] ∧
    (process_text now o s text).2.interactions =
      s.interactions ++ [.entry (mkUserEntry text)] := by
  have hu_hist := add_interaction_context_history s (mkUserEntry text)
  have hu := add_interaction_interactions s (mkUserEntry text) (by omega)
  simp only [process_text, hmode]
  rw [if_neg (by decide), if_neg (by decide)]
  unfold process_text_freeform
  dsimp only
  rw [if_neg (by simp [hkind])]
  by_cases herr : o.structured.rtype = some "error"
  · rw [if_pos herr]
    split <;> exact ⟨hu_hist, hu⟩
  · rw [if_neg herr, if_pos ⟨rfl, hkind⟩]
    exact ⟨hu_hist, hu⟩

/-- C5 (corrected): what a successful text turn appends to
`context_history`/`interactions`.  (a) A tutoring turn whose model reply is a
step or check-in appends exactly one user entry followed by one assistant
entry, in that order.  (b) A tutoring turn whose model reply has no `kind` —
which covers the `type = "error"` inference-failure fallback and the
kind-less coach-shaped fallback — appends only the user entry and no
assistant entry.  (c) An interview text turn that is not a `BEGIN_INTERVIEW`
command or the `end` keyword appends only the user entry — setup prompts,
hints, questions and endings record no assistant entry.  (d) The same holds
for a public-speaking text turn that is not a begin command, a completion
token, or past the 15-minute cap.  (All parts assume the turn does not cross
the compression threshold.) -/
theorem turn_append_discipline :
    (∀ (now : ℚ) (o : Oracles) (s : Session) (text : List Char),
      s.mode = "tutoring" →
      (o.structured.kind = some "step" ∨ o.structured.kind = some "check_in") →
      s.interactions.length ≤ 98 →
      ∃ r', (process_text now o s text).1 = .structured r' ∧
        (step_branch_entry r').role = "assistant" ∧
        (process_text now o s text).2.context_history =
          s.context_history ++
            [toHistoryEntry (mkUserEntry text), toHistoryEntry (step_branch_entry r')] ∧
        (process_text now o s text).2.interactions =
          s.interactions ++
            [.entry (mkUserEntry text), .entry (step_branch_entry r')]) ∧
    (∀ (now : ℚ) (o : Oracles) (s : Session) (text : List Char),
      s.mode = "tutoring" → o.structured.kind = none →
      s.interactions.length ≤ 99 →
      (process_text now o s text).2.context_history =
        s.context_history ++ [toHistoryEntry (mkUserEntry text)] ∧
      (process_text now o s text).2.interactions =
        s.interactions ++ [.entry (mkUserEntry text)]) ∧
    (∀ (now : ℚ) (o : Oracles) (s : Session) (text : List Char),
      s.mode = "interview" →
      ¬("BEGIN_INTERVIEW".data.isPrefixOf (trimChars text) = true) →
      pyLower (trimChars text) ≠ "end".data →
      s.interactions.length ≤ 29 →
      (process_text now o s text).2.context_history =
        s.context_history ++ [toHistoryEntry (mkUserEntry (trimChars text))] ∧
      (process_text now o s text).2.interactions =
        s.interactions ++ [.entry (mkUserEntry (trimChars text))]) ∧
    (∀ (now : ℚ) (o : Oracles) (s : Session) (text : List Char),
      s.mode = "public_speaking" →
      ¬("BEGIN_PUBLIC_SPEAKING".data.isPrefixOf (trimChars text) = true) →
      ¬(is_public_speaking_done (pyLower (trimChars text)) = true) →
      ¬(ps_time_up now s.public_speaking_state = true) →
      s.interactions.length ≤ 29 →
      (process_text now o s text).2.context_history =
        s.context_history ++ [toHistoryEntry (mkUserEntry (trimChars text))] ∧
      (process_text now o s text).2.interactions =
        s.interactions ++ [.entry (mkUserEntry (trimChars text))]) := by
  refine ⟨freeform_step_appends, freeform_fallback_appends_user_only, ?_, ?_⟩
  · intro now o s text hmode hb he hlen
    have hdisp : process_text now o s text = handle_interview_flow now o s text := by
      unfold process_text
      rw [hmode, if_pos rfl]
    rw [hdisp]
    exact interview_flow_appends_user now o s text hb he hlen
  · intro now o s text hmode hb hd ht hlen
    have hdisp : process_text now o s text =
        handle_public_speaking_flow now o s text := by
      unfold process_text
      rw [hmode, if_neg (by decide), if_pos rfl]
    rw [hdisp]
    exact ps_flow_appends_user now o s text hb hd ht hlen

/-- C5 witness: an interview setup turn appends exactly the user entry. -/
theorem turn_append_discipline_witness :
    (process_text 0 demoOracle demoInterview "hello".data).2.context_history =
      demoInterview.context_history ++
        [toHistoryEntry (mkUserEntry (trimChars "hello".data))] ∧
    (process_text 0 demoOracle demoInterview "hello".data).2.interactions =
      demoInterview.interactions ++ [.entry (mkUserEntry (trimChars "hello".data))] :=
  turn_append_discipline.2.2.1 0 demoOracle demoInterview "hello".data rfl
    (by decide) (by decide) (by decide)

/-- C5 counterexample: a successful interview setup-stage text turn returns a
coach prompt but appends only the user entry — no assistant entry is
recorded, so the claimed "exactly one assistant entry in every branch" is
false. -/
theorem setup_prompt_appends_no_assistant_counterexample :
    demoInterview.interactions = [] ∧
    (process_text 0 demoOracle demoInterview "hello".data).1 =
      .coach "What role are you interviewing for?".data "Interview setup".data
        "evaluating" ∧
    (process_text 0 demoOracle demoInterview "hello".data).2.interactions =
      [.entry (mkUserEntry "hello".data)] ∧
    (mkUserEntry "hello".data).role = "user" := by
  refine ⟨rfl, by decide, by decide, rfl⟩

/-! ## C6: the round-trip and compression contract of the history lists -/

/-- C6 (corrected): `context_history` always grows by exactly the projected
appended entry — so appending N interactions yields those N entries in
insertion order, and compression never rewrites `context_history`; the list
the compression event rewrites is `interactions`: when an append pushes it
past 100 records, it becomes one summary record followed by the last 20
records (length 21). -/
theorem context_history_roundtrip :
    (∀ (s : Session) (e : Entry),
      (add_interaction s e).context_history =
        s.context_history ++ [toHistoryEntry e]) ∧
    (∀ (s : Session) (l : List Entry),
      (addInteractions s l).context_history =
        s.context_history ++ l.map toHistoryEntry) ∧
    (∀ (s : Session) (e : Entry), s.interactions.length = 100 →
      (add_interaction s e).interactions =
        InteractionRecord.summary 81 ::
          (s.interactions ++ [InteractionRecord.entry e]).drop 81 ∧
      (add_interaction s e).interactions.length = 21) := by
  refine ⟨add_interaction_context_history, ?_, ?_⟩
  · intro s l
    induction l generalizing s with
    | nil => simp [addInteractions]
    | cons e rest ih =>
      rw [addInteractions, ih, add_interaction_context_history, List.append_assoc]
      rfl
  · intro s e h
    have hl : (s.interactions ++ [InteractionRecord.entry e]).length = 101 := by
      simp only [List.length_append, List.length_singleton, h]
    unfold add_interaction
    dsimp only
    rw [if_pos (by rw [hl]; omega)]
    unfold compress_context
    dsimp only
    rw [if_neg (by rw [hl]; omega)]
    constructor
    · rw [hl]
    · rw [hl]
      simp only [List.length_cons, List.length_drop, hl]

set_option maxRecDepth 10000 in
set_option maxHeartbeats 2000000 in
/-- C6 witness: the 101st append on a fresh session compresses `interactions`
to 21 records while `context_history` keeps growing one entry at a time. -/
theorem context_history_roundtrip_witness :
    (add_interaction (appendConst demoTutoring 100) (mkUserEntry "y".data)).interactions.length = 21 ∧
    (add_interaction (appendConst demoTutoring 100) (mkUserEntry "y".data)).context_history =
      (appendConst demoTutoring 100).context_history ++
        [toHistoryEntry (mkUserEntry "y".data)] :=
  ⟨(context_history_roundtrip.2.2 (appendConst demoTutoring 100)
      (mkUserEntry "y".data) (by decide)).2,
   context_history_roundtrip.1 (appendConst demoTutoring 100) (mkUserEntry "y".data)⟩

set_option maxRecDepth 10000 in
set_option maxHeartbeats 2000000 in
/-- C6 counterexample: after 101 appends the compression event has happened
(`interactions` is one summary plus the last 20, length 21), yet
`context_history` still holds all 101 entries — it is not replaced by
`summary + last 20` as the claim states. -/
theorem compression_leaves_context_history_counterexample :
    (appendConst demoTutoring 101).interactions.length = 21 ∧
    (appendConst demoTutoring 101).interactions.head? = some (.summary 81) ∧
    (appendConst demoTutoring 101).context_history.length = 101 := by
  refine ⟨by decide, by decide, by decide⟩

end Coach
